import Mathlib

/-!
Verification of the mailpopbox server against its specification.

The Go sources are shallowly embedded: byte strings and Go `string`s become
`List Char` (the program only manipulates ASCII bytes in the properties we
verify), pure functions become Lean functions, stateful connection code
becomes explicit state passing, and Go panics become `Except Unit` errors.
Network effects (DNS lookups, SMTP client dialogs, the filesystem) are passed
in explicitly as data.
-/

set_option maxRecDepth 10000

abbrev Str := List Char

def str (s : String) : Str := s.data

/-- ASCII lowercase map; models Go strings.ToLower / bytes.ToLower on the
ASCII inputs handled here. -/
def lowerChar (c : Char) : Char :=
  if 65 ≤ c.toNat ∧ c.toNat ≤ 90 then Char.ofNat (c.toNat + 32) else c

def lowerStr (s : Str) : Str := s.map lowerChar

/-- ASCII uppercase map; models Go strings.ToUpper on ASCII inputs. -/
def upperChar (c : Char) : Char :=
  if 97 ≤ c.toNat ∧ c.toNat ≤ 122 then Char.ofNat (c.toNat - 32) else c

def upperStr (s : Str) : Str := s.map upperChar

def isAsciiUpper (c : Char) : Bool := decide (65 ≤ c.toNat) && decide (c.toNat ≤ 90)

/-- First index at which `pat` occurs in `s`; models Go bytes.Index /
strings.Index. -/
def findSubIdxAux (pat : Str) (t : Str) (i : Nat) : Option Nat :=
  if pat.isPrefixOf t then some i
  else
    match t with
    | [] => none
    | _ :: rest => findSubIdxAux pat rest (i + 1)

def findSubIdx (s pat : Str) : Option Nat := findSubIdxAux pat s 0

def containsSub (s pat : Str) : Bool := (findSubIdx s pat).isSome

/-- Last index of character `c` in `s`; models Go strings.LastIndex /
bytes.LastIndexByte for a one-byte separator. -/
def lastIdxOfAux (c : Char) : Str → Nat → Option Nat → Option Nat
  | [], _, acc => acc
  | x :: rest, i, acc => lastIdxOfAux c rest (i + 1) (if x = c then some i else acc)

def lastIdxOf (s : Str) (c : Char) : Option Nat := lastIdxOfAux c s 0 none

/-- Go strings.Split on a single NUL byte (used for AUTH PLAIN). -/
def splitOnChar (c : Char) : Str → List Str
  | [] => [[]]
  | x :: rest =>
    if x = c then [] :: splitOnChar c rest
    else
      match splitOnChar c rest with
      | h :: t => (x :: h) :: t
      | [] => [[x]]

/-- Go bytes.SplitAfter(s, "\n"). -/
def splitAfterNL : Str → List Str
  | [] => [[]]
  | c :: rest =>
    if c = '\n' then [c] :: splitAfterNL rest
    else
      match splitAfterNL rest with
      | h :: t => (c :: h) :: t
      | [] => [[c]]

def isSpaceChar (c : Char) : Bool :=
  decide (c = ' ') || decide (c = '\t') || decide (c = '\n') || decide (c = '\r')

def trimSpace (s : Str) : Str :=
  ((s.dropWhile isSpaceChar).reverse.dropWhile isSpaceChar).reverse

def digitsToNat (ds : Str) : Nat :=
  ds.foldl (fun acc d => acc * 10 + (d.toNat - 48)) 0

def parseNatTok (s : Str) : Option Nat :=
  let ds := s.takeWhile Char.isDigit
  if ds = [] then none else some (digitsToNat ds)

/-- Leading integer of a token; models fmt.Sscanf %d (optional sign, at
least one digit, stops at the first non-digit). -/
def parseIntTok (s : Str) : Option Int :=
  match s with
  | '-' :: rest => (parseNatTok rest).map (fun n => -(n : Int))
  | '+' :: rest => (parseNatTok rest).map (fun n => (n : Int))
  | _ => (parseNatTok s).map (fun n => (n : Int))

/-- fmt.Sscanf(line, "%s"): first whitespace-delimited token. -/
def firstTok (line : Str) : Str :=
  (line.dropWhile isSpaceChar).takeWhile (fun c => !isSpaceChar c)

/-- fmt.Sscanf(line, "%s %d"): a token then an integer; `none` when either
item fails to scan (Go then reports n < 2). -/
def sscanfStrInt (line : Str) : Option (Str × Int) :=
  let s1 := line.dropWhile isSpaceChar
  let tok := s1.takeWhile (fun c => !isSpaceChar c)
  if tok = [] then none
  else
    let s2 := (s1.drop tok.length).dropWhile isSpaceChar
    (parseIntTok s2).map (fun n => (tok, n))

/-! ## SMTP data model (pkg smtp, server.go) -/

structure ReplyLine where
  Code : Nat
  Message : Str
deriving DecidableEq

def ReplyOK : ReplyLine := ⟨250, str "OK"⟩
def ReplyAuthOK : ReplyLine := ⟨235, str "auth success"⟩
/-- Source name: ReplyBadSyntax. -/
def ReplySyntaxError : ReplyLine := ⟨501, str "syntax error"⟩
def ReplyBadSequence : ReplyLine := ⟨503, str "bad sequence of commands"⟩
def ReplyBadMailbox : ReplyLine := ⟨550, str "mailbox unavailable"⟩
def ReplyMailboxUnallowed : ReplyLine := ⟨553, str "mailbox name not allowed"⟩

structure MailAddress where
  Name : Str
  Address : Str
deriving DecidableEq

/-- smtp.DomainForAddressString: substring after the last "@", or "". -/
def DomainForAddressString (address : Str) : Str :=
  match lastIdxOf address '@' with
  | none => []
  | some i => address.drop (i + 1)

def DomainForAddress (addr : MailAddress) : Str :=
  DomainForAddressString addr.Address

structure Envelope where
  RemoteAddr : Option Str
  EHLO : Str
  MailFrom : MailAddress
  RcptTo : List MailAddress
  Data : Str
  ReceivedDate : Str
  ID : Str
deriving DecidableEq

/-- smtp.generateEnvelopeId: fmt.Sprintf("%s.%d.%x", prefix, nanos, 4 random
bytes); the numeric and random renderings are passed in as strings. -/
def generateEnvelopeId (pre nanos randHex : Str) : Str :=
  pre ++ str "." ++ nanos ++ str "." ++ randHex

/-- smtp.WriteEnvelopeForDelivery. -/
def WriteEnvelopeForDelivery (e : Envelope) : Str :=
  str "Delivered-To: <" ++ (e.RcptTo.headD ⟨[], []⟩).Address ++ str ">\r\n" ++
  str "Return-Path: <" ++ e.MailFrom.Address ++ str ">\r\n" ++
  e.Data

/-! ## Configuration (config.go) -/

structure Server where
  Domain : Str
  MailboxPassword : Str
  MaildropPath : Str
  BlacklistedAddresses : List Str
deriving DecidableEq

structure Config where
  Hostname : Str
  Servers : List Server
deriving DecidableEq

/-! ## net/mail address parsing (model of the standard library)

Model of Go net/mail.ParseAddress restricted to the address shapes this
program receives: an optional display fragment followed by one angle-addr,
or a bare addr-spec. The address text is returned unchanged (ParseAddress
never alters the case of the addr-spec characters). -/

def validAddrChar (c : Char) : Bool :=
  !(isSpaceChar c) && decide (c ≠ '<') && decide (c ≠ '>') &&
  decide (c ≠ '@') && decide (c ≠ ',') && decide (c ≠ '"')

def validAddrSpec (s : Str) : Bool :=
  let locPart := s.takeWhile (fun c => c ≠ '@')
  match s.dropWhile (fun c => c ≠ '@') with
  | '@' :: domain =>
    decide (locPart ≠ []) && decide (domain ≠ []) &&
    locPart.all validAddrChar && domain.all validAddrChar
  | _ => false

def parseAddress (s : Str) : Option MailAddress :=
  match findSubIdx s (str "<") with
  | some i =>
    let afterLt := (s.drop (i + 1))
    let inside := afterLt.takeWhile (fun c => c ≠ '>')
    match afterLt.dropWhile (fun c => c ≠ '>') with
    | [] => none
    | _ :: tail =>
      if tail.all isSpaceChar ∧ validAddrSpec inside then
        some ⟨trimSpace (s.take i), inside⟩
      else none
  | none =>
    let t := trimSpace s
    if validAddrSpec t then some ⟨[], t⟩ else none

/-- Model of Go net/mail Address.String for the shapes used here: an empty
display name renders as "<addr>", an atom display name as "name <addr>". -/
def addressString (a : MailAddress) : Str :=
  if a.Name = [] then str "<" ++ a.Address ++ str ">"
  else a.Name ++ str " <" ++ a.Address ++ str ">"

/-! ## smtpServer callbacks (smtp.go, src/unnamed/part_017 first revision) -/

/-- smtpServer.configForAddress: the first configured Server whose Domain
equals the domain of the address. -/
def configForAddress (cfg : Config) (addr : MailAddress) : Option Server :=
  let domain := DomainForAddress addr
  cfg.Servers.find? (fun s => decide (s.Domain = domain))

/-- smtpServer.VerifyAddress: unknown domain rejects with ReplyBadMailbox;
an exact match against the configured blacklist (field BlacklistedAddresses
in config.go; the server code refers to it as its blocked-address list)
rejects with ReplyMailboxUnallowed; otherwise ReplyOK. -/
def VerifyAddress (cfg : Config) (addr : MailAddress) : ReplyLine :=
  match configForAddress cfg addr with
  | none => ReplyBadMailbox
  | some s =>
    if s.BlacklistedAddresses.any (fun b => decide (b = addr.Address))
    then ReplyMailboxUnallowed
    else ReplyOK

/-- smtpServer.Authenticate. -/
def Authenticate (cfg : Config) (authz authc passwd : Str) : Bool :=
  match parseAddress authc with
  | none => false
  | some authcAddr =>
    let authzAddr := parseAddress authz
    if authz ≠ [] ∧ authzAddr = none then false
    else
      let domain := DomainForAddress authcAddr
      match cfg.Servers.find? (fun s => decide (s.Domain = domain)) with
      | none => false
      | some s =>
        let authOk := decide (authc = str "mailbox@" ++ s.Domain) &&
                      decide (passwd = s.MailboxPassword)
        match authzAddr with
        | some za => authOk && decide (DomainForAddress za = domain)
        | none => authOk

/-! ## SMTP connection: path parsing (conn.go, src/unnamed/part_005) -/

/-- connection.parsePath: case-insensitive check of the command prefix, then
everything up to and including the first ">" of the parameters, lowercased. -/
def parsePath (line command : Str) : Str × ReplyLine :=
  if line.length < command.length then ([], ReplySyntaxError)
  else if upperStr command ≠ upperStr (line.take command.length) then
    ([], ⟨500, str "unrecognized command"⟩)
  else
    let params := line.drop command.length
    match findSubIdx params (str ">") with
    | none => ([], ReplySyntaxError)
    | some idx => (lowerStr (params.take (idx + 1)), ReplyOK)

/-- connection.doMAIL, reduced to the address-producing kernel: the accepted
reverse-path address (if any) and the reply. State sequencing is elided. -/
def doMAIL (line : Str) : Option MailAddress × ReplyLine :=
  let pr := parsePath line (str "MAIL FROM:")
  if pr.2 ≠ ReplyOK then (none, pr.2)
  else
    match parseAddress pr.1 with
    | none => (none, ReplySyntaxError)
    | some a => (some a, ReplyOK)

/-- connection.doRCPT, reduced to the address-producing kernel: the accepted
forward-path address (appended to rcptTo, if any) and the reply. -/
def doRCPT (cfg : Config) (line : Str) : Option MailAddress × ReplyLine :=
  let pr := parsePath line (str "RCPT TO:")
  if pr.2 ≠ ReplyOK then (none, pr.2)
  else
    match parseAddress pr.1 with
    | none => (none, ReplySyntaxError)
    | some a =>
      let v := VerifyAddress cfg a
      if v ≠ ReplyOK then (none, v) else (some a, ReplyOK)

/-! ## AUTH PLAIN (base64 per encoding/base64 StdEncoding) -/

def b64Val (c : Char) : Option Nat :=
  if 'A' ≤ c ∧ c ≤ 'Z' then some (c.toNat - 65)
  else if 'a' ≤ c ∧ c ≤ 'z' then some (c.toNat - 97 + 26)
  else if '0' ≤ c ∧ c ≤ '9' then some (c.toNat - 48 + 52)
  else if c = '+' then some 62
  else if c = '/' then some 63
  else none

/-- Model of base64.StdEncoding.DecodeString: standard alphabet, strict
padding, length a multiple of four. Returns byte values. -/
def base64Decode : Str → Option (List Nat)
  | [] => some []
  | a :: b :: c :: d :: rest =>
    match b64Val a, b64Val b with
    | some va, some vb =>
      if c = '=' then
        if d = '=' ∧ rest = [] then some [va * 4 + vb / 16]
        else none
      else
        match b64Val c with
        | some vc =>
          if d = '=' then
            if rest = [] then some [va * 4 + vb / 16, (vb % 16) * 16 + vc / 4]
            else none
          else
            match b64Val d with
            | some vd =>
              (base64Decode rest).map
                (fun bs => (va * 4 + vb / 16) :: ((vb % 16) * 16 + vc / 4) ::
                           ((vc % 4) * 64 + vd) :: bs)
            | none => none
        | none => none
    | _, _ => none
  | _ => none

/-- Modelled from the spec: the current smtp conn.go doAUTH is not under
src/ (src/unnamed/part_005 holds a superseded revision that targets the old
OnMessageDelivered Server interface and predates ReplyAuthOK; the current
tests in src/pkg/smtp/conn_test.go and the reply constants in
src/smtp/server.go are present). Per spec section 4.1: AUTH PLAIN is only
accepted over TLS in the Initial state (else 503 bad sequence), only once
per connection (a second AUTH after success yields 503), the base64 payload
is decoded (undecodable yields 501), the decoded bytes must be exactly three
NUL-separated fields (else 501), and the credentials are checked with
Server.Authenticate (success yields 235 and records authc, mismatch
yields 535). `authc` is the previously authenticated identity ([] if none);
`payload` is the base64 line (initial response or continuation line). -/
def doAUTH (cfg : Config) (tlsActive stateIsInitial : Bool) (authc : Str)
    (payload : Str) : ReplyLine × Str :=
  if ¬stateIsInitial ∨ ¬tlsActive then (ReplyBadSequence, authc)
  else if authc ≠ [] then (⟨503, str "already authenticated"⟩, authc)
  else
    match base64Decode payload with
    | none => (ReplySyntaxError, authc)
    | some bytes =>
      match splitOnChar (Char.ofNat 0) (bytes.map Char.ofNat) with
      | [az, ac, pw] =>
        if Authenticate cfg az ac pw then (ReplyAuthOK, ac)
        else (⟨535, str "invalid credentials"⟩, authc)
      | _ => (ReplySyntaxError, authc)

/-! ## Received trace (conn.go getReceivedInfo) -/

/-- connection.getReceivedInfo. The reverse-lookup rendering of the peer
(`rhost`), the server name, and the transport string are passed in as data;
`esmtp` and `tlsActive` select the with-token as in the source. -/
def getReceivedInfo (ehlo rhost serverName : Str) (esmtp tlsActive : Bool)
    (transport : Str) (e : Envelope) : Str :=
  let withTok := (if esmtp then str "E" else []) ++ str "SMTP" ++
                 (if tlsActive then str "S" else [])
  str "Received: from " ++ ehlo ++ str " (" ++ rhost ++ str ")\r\n        " ++
  str "by " ++ serverName ++ str " (mailpopbox) with " ++ withTok ++
  str " id " ++ e.ID ++ str "\r\n        " ++
  str "for <" ++ (e.RcptTo.headD ⟨[], []⟩).Address ++ str ">\r\n        " ++
  str "(using " ++ transport ++ str ");\r\n        " ++ e.ReceivedDate ++ str "\r\n"

/-! ## Send-as rewrite (smtp.go handleSendAs, src/unnamed/part_017)

The regular expression sendAsSubject =
  (?i)\[sendas:\s*([a-zA-Z0-9\.\-_]+)\]
is embedded as a direct matcher. Because the character class excludes both
whitespace and "]", greedy matching without backtracking coincides with the
regexp engine's leftmost match semantics for this pattern. -/

def isGoSpace (c : Char) : Bool :=
  decide (c = ' ') || decide (c = '\t') || decide (c = '\n') ||
  decide (c = Char.ofNat 11) || decide (c = Char.ofNat 12) || decide (c = '\r')

def isSendAsUserChar (c : Char) : Bool :=
  c.isAlpha || c.isDigit || decide (c = '.') || decide (c = '-') || decide (c = '_')

/-- Try to match the sendas pattern at the start of `s`. On success returns
(match length, capture start, capture end), indices relative to `s`. -/
def sendAsMatchHere (s : Str) : Option (Nat × Nat × Nat) :=
  if lowerStr (s.take 8) = str "[sendas:" then
    let afterTag := s.drop 8
    let wsLen := (afterTag.takeWhile isGoSpace).length
    let afterWs := afterTag.drop wsLen
    let userLen := (afterWs.takeWhile isSendAsUserChar).length
    if userLen ≠ 0 ∧ (afterWs.drop userLen).take 1 = str "]" then
      some (8 + wsLen + userLen + 1, 8 + wsLen, 8 + wsLen + userLen)
    else none
  else none

/-- Leftmost match of the sendas pattern: returns the four indices of
regexp.FindSubmatchIndex (match start/end, capture start/end). -/
def sendAsFindAux : Str → Nat → Option (Nat × Nat × Nat × Nat)
  | s, i =>
    match sendAsMatchHere s with
    | some (len, cs, ce) => some (i, i + len, i + cs, i + ce)
    | none =>
      match s with
      | [] => none
      | _ :: rest => sendAsFindAux rest (i + 1)

def sendAsFind (s : Str) : Option (Nat × Nat × Nat × Nat) := sendAsFindAux s 0

/-- The Go loop over headers records the index of the last header prefixed
by `pre`; both fromIdx and subjectIdx start at 0 (not -1), so the checks
against -1 in the source can never fire. -/
def lastHdrIdxAux (pre : Str) : List Str → Nat → Nat → Nat
  | [], _, acc => acc
  | h :: t, i, acc => lastHdrIdxAux pre t (i + 1) (if pre.isPrefixOf h then i else acc)

def lastHdrIdx (pre : Str) (headers : List Str) : Nat := lastHdrIdxAux pre headers 0 0

/-- smtpServer.handleSendAs. -/
def handleSendAs (en : Envelope) (authc : Str) : Envelope :=
  match findSubIdx en.Data (str "\n\n") with
  | none => en
  | some headerIdx =>
    let headers := splitAfterNL (en.Data.take headerIdx)
    let fromIdx := lastHdrIdx (str "From:") headers
    let subjectIdx := lastHdrIdx (str "Subject:") headers
    let subjHdr := headers.getD subjectIdx []
    match sendAsFind subjHdr with
    | none => en
    | some (m0s, m0e, m1s, m1e) =>
      let sendAsUser := (subjHdr.take m1e).drop m1s
      let sendAsAddress := sendAsUser ++ str "@" ++ DomainForAddressString authc
      let rewritten := headers.enum.map (fun p =>
        if p.1 = subjectIdx then p.2.take m0s ++ p.2.drop m0e
        else if p.1 = fromIdx then
          let addressStart : Nat :=
            match lastIdxOf p.2 '<' with
            | some j => j + 1
            | none => 0
          p.2.take addressStart ++ sendAsAddress ++ str ">\n"
        else p.2)
      { en with Data := rewritten.flatten ++ en.Data.drop headerIdx,
                MailFrom := { en.MailFrom with Address := sendAsAddress } }

/-! ## Outbound MTA (src/pkg/version/version.go second revision = the
current pkg smtp relay.go) -/

structure MXRecord where
  Host : Str
deriving DecidableEq

/-- mta.deliverRelayFailure. Wall-clock and random inputs (the DSN id parts,
the Date renderings, the multipart boundary) and the reverse lookup of
env.RemoteAddr are passed in as data. The byte assembly mirrors the source
line by line; multipart part boundaries follow mime/multipart.Writer
(first CreatePart emits "--B\r\n", later ones "\r\n--B\r\n", Close emits
"\r\n--B--\r\n", each part header block ends with a blank line). -/
structure DSNParams where
  errorStr : Str
  sendErr : Str
  nowDate : Str
  nowNanos : Str
  nowHex : Str
  boundary : Str
  rhost : Str
deriving DecidableEq

def deliverRelayFailure (env : Envelope) (toAddr : Str) (p : DSNParams) : Envelope :=
  let failMailFrom : MailAddress :=
    ⟨str "mailpopbox", str "mailbox@" ++ DomainForAddress env.MailFrom⟩
  let fid := generateEnvelopeId (str "f") p.nowNanos p.nowHex
  let buf := str "From: " ++ addressString failMailFrom ++ str "\n"
  let buf := buf ++ str "To: " ++ addressString env.MailFrom ++ str "\n"
  let buf := buf ++ str "Subject: Delivery Status Notification (Failure)\n"
  let buf := buf ++ str "X-Failed-Recipients: " ++ toAddr ++ str "\n"
  let buf := buf ++ str "Message-ID: " ++ fid ++ str "\n"
  let buf := buf ++ str "Date: " ++ p.nowDate ++ str "\n"
  let buf := buf ++ str "Content-Type: multipart/report; boundary=" ++ p.boundary ++
             str "; report-type=delivery-status\n\n"
  let buf := buf ++ str "--" ++ p.boundary ++
             str "\r\nContent-Type: text/plain; charset=UTF-8\r\n\r\n"
  let buf := buf ++ str "* * * Delivery Failure * * *\n\n"
  let buf := buf ++ str "The server failed to relay the message:\n\n" ++
             p.errorStr ++ str ":\n" ++ p.sendErr ++ str "\n"
  let buf := buf ++ str "\r\n--" ++ p.boundary ++
             str "\r\nContent-Type: message/delivery-status\r\n\r\n"
  let buf := buf ++ str "Original-Envelope-ID: " ++ env.ID ++ str "\n"
  let buf := buf ++ str "Reporting-UA: " ++ env.EHLO ++ str "\n"
  let buf := buf ++ (match env.RemoteAddr with
    | some _ => str "Reporting-MTA: dns; " ++ p.rhost ++ str "\n"
    | none => [])
  let buf := buf ++ str "Date: " ++ env.ReceivedDate ++ str "\n"
  let buf := buf ++ str "\r\n--" ++ p.boundary ++
             str "\r\nContent-Type: message/rfc822\r\n\r\n"
  let buf := buf ++ env.Data
  let buf := buf ++ str "\r\n--" ++ p.boundary ++ str "--\r\n"
  { RemoteAddr := none, EHLO := [], MailFrom := failMailFrom,
    RcptTo := [env.MailFrom], Data := buf, ReceivedDate := p.nowDate, ID := fid }

/-- Observable network behavior of the relay loop: a DSN synthesized for a
recipient, or one SMTP transaction attempted against a host. -/
inductive RelayEvent where
  | dsn (rcpt : Str)
  | attempt (host port mailFrom rcpt data : Str)
deriving DecidableEq

/-- mta.RelayMessage: per recipient, look up MX records (passed in as
`lookupMX`, none = lookup error); on error or an empty record set, deliver a
relay-failure DSN and return from the whole loop; otherwise run one SMTP
transaction (relayMessageToHost) against the first MX host on port 25,
writing env.Data verbatim. -/
def RelayMessageAux (lookupMX : Str → Option (List MXRecord)) (env : Envelope) :
    List MailAddress → List RelayEvent
  | [] => []
  | rcptTo :: rest =>
    let domain := DomainForAddress rcptTo
    match lookupMX domain with
    | none => [RelayEvent.dsn rcptTo.Address]
    | some mx =>
      if mx.length < 1 then [RelayEvent.dsn rcptTo.Address]
      else
        RelayEvent.attempt (mx.headD ⟨[]⟩).Host (str "25") env.MailFrom.Address
            rcptTo.Address env.Data ::
          RelayMessageAux lookupMX env rest

def RelayMessage (lookupMX : Str → Option (List MXRecord)) (env : Envelope) :
    List RelayEvent :=
  RelayMessageAux lookupMX env env.RcptTo

/-! ## POP3 maildrop (src/unnamed/part_014 first revision) and server
(the current pop3 conn.go, second document of src/pkg/smtp/conn_test.go) -/

structure PopMessage where
  filename : Str
  index : Nat
  size : Nat
  deleted : Bool
deriving DecidableEq

def pathBase (s : Str) : Str :=
  match lastIdxOf s '/' with
  | none => s
  | some i => s.drop (i + 1)

/-- message.UniqueID: the basename of the file with ".msg" stripped. -/
def UniqueID (m : PopMessage) : Str :=
  pathBase (m.filename.take (m.filename.length - 4))

/-- message.ID: 1-based ordinal. -/
def msgOrdinal (m : PopMessage) : Nat := m.index + 1

/-- pop3Server.openMailbox: snapshot the maildrop directory. The filesystem
is a list of (filename, contents) pairs standing for the sorted directory
listing of ioutil.ReadDir (directories excluded). -/
def openMailbox (files : List (Str × Str)) : List PopMessage :=
  files.enum.map (fun p => ⟨p.2.1, p.1, p.2.2.length, false⟩)

/-- mailbox.GetMessage: only the upper bound is checked before indexing
messages[id-1]; an id below 1 makes the Go slice index negative, which
panics (modelled by `.error`). -/
def GetMessage (msgs : List PopMessage) (id : Int) : Except Unit (Option PopMessage) :=
  if (msgs.length : Int) < id then Except.ok none
  else if 1 ≤ id then Except.ok ((msgs.drop (id - 1).toNat).head?)
  else Except.error ()

/-- os.Remove on the modelled filesystem. -/
def osRemove (fs : List (Str × Str)) (name : Str) : List (Str × Str) :=
  fs.filter (fun f => decide (f.1 ≠ name))

/-- mailbox.Close: unlink the file of every message marked deleted. -/
def closeMailbox (msgs : List PopMessage) (fs : List (Str × Str)) : List (Str × Str) :=
  match msgs with
  | [] => fs
  | m :: ms => closeMailbox ms (if m.deleted then osRemove fs m.filename else fs)

/-- mailbox.Reset. -/
def resetMailbox (msgs : List PopMessage) : List PopMessage :=
  msgs.map (fun m => { m with deleted := false })

def natToStr (n : Nat) : Str := Nat.toDigits 10 n

/-- One "%d %d" line of a LIST scan listing. -/
def msgEntryLine (m : PopMessage) : Str :=
  natToStr (msgOrdinal m) ++ str " " ++ natToStr m.size

/-- connection.doSTAT: count and total size over the non-deleted messages. -/
def statCounts (msgs : List PopMessage) : Nat × Nat :=
  msgs.foldl (fun acc m => if m.deleted then acc else (acc.1 + 1, acc.2 + m.size)) (0, 0)

def doSTAT (msgs : List PopMessage) : Str :=
  let c := statCounts msgs
  str "+OK " ++ natToStr c.1 ++ str " " ++ natToStr c.2

/-- connection.doLIST: with a numeric argument, look the message up (the
argument reaches GetMessage unvalidated, so a non-positive argument panics);
without one, print the scan listing of every snapshot message. Returns the
reply lines written, or a panic. -/
def doLIST (msgs : List PopMessage) (line : Str) : Except Unit (List Str) :=
  match sscanfStrInt line with
  | some (_, id) =>
    match GetMessage msgs id with
    | Except.error _ => Except.error ()
    | Except.ok none => Except.ok [str "-ERR No message with that ID"]
    | Except.ok (some m) =>
      if m.deleted then Except.ok [str "-ERR no such message - deleted"]
      else Except.ok [str "+OK scan listing", msgEntryLine m, str "."]
  | none =>
    Except.ok (str "+OK scan listing" :: msgs.map msgEntryLine ++ [str "."])

/-- connection.doUIDL: scan listing over the non-deleted messages. -/
def doUIDL (msgs : List PopMessage) : List Str :=
  str "+OK unique-id listing" ::
    (msgs.filter (fun m => !m.deleted)).map
      (fun m => natToStr (msgOrdinal m) ++ str " " ++ UniqueID m) ++ [str "."]

/-- connection.getRequestedMessage (shared by RETR and DELE): scan "%s %d",
reject an index below 1 ("invalid message-number") before calling
GetMessage, reject a missing message. Returns the 0-based position. -/
def getRequestedMessage (msgs : List PopMessage) (line : Str) : Option Nat :=
  match sscanfStrInt line with
  | none => none
  | some (_, idx) =>
    if idx < 1 then none
    else if (msgs.length : Int) < idx then none
    else some (idx - 1).toNat

/-! ## POP3 session state machine -/

structure Pop3Cfg where
  domain : Str
  password : Str
deriving DecidableEq

structure Pop3State where
  fs : List (Str × Str)
  mb : Option (List PopMessage)
  txn : Bool
  user : Str
deriving DecidableEq

/-- Result of one command dispatch: continue the read loop, close after
QUIT (recording the mailbox doQUIT saw), or a Go runtime panic (which kills
the process without running doQUIT). -/
inductive PopOutcome where
  | cont (st : Pop3State)
  | halt (st : Pop3State) (quitMb : Option (List PopMessage))
  | panicked (st : Pop3State)
deriving DecidableEq

/-- The verbs pop3.AcceptConnection dispatches on (switch on the upper-cased
first token of the line). -/
inductive PopVerb where
  | vEmpty | vQuit | vUser | vPass | vStat | vList | vRetr | vDele | vNoop
  | vRset | vUidl | vCapa | vOther
deriving DecidableEq

def parseVerb (line : Str) : PopVerb :=
  let cmd := upperStr (firstTok line)
  if cmd = [] then PopVerb.vEmpty
  else if cmd = str "QUIT" then PopVerb.vQuit
  else if cmd = str "USER" then PopVerb.vUser
  else if cmd = str "PASS" then PopVerb.vPass
  else if cmd = str "STAT" then PopVerb.vStat
  else if cmd = str "LIST" then PopVerb.vList
  else if cmd = str "RETR" then PopVerb.vRetr
  else if cmd = str "DELE" then PopVerb.vDele
  else if cmd = str "NOOP" then PopVerb.vNoop
  else if cmd = str "RSET" then PopVerb.vRset
  else if cmd = str "UIDL" then PopVerb.vUidl
  else if cmd = str "CAPA" then PopVerb.vCapa
  else PopVerb.vOther

/-- One iteration of pop3.AcceptConnection's read loop. Replies are elided;
only session state and filesystem effects are tracked. STAT, RETR, UIDL,
CAPA, NOOP and unknown verbs neither change the session state nor touch the
filesystem. -/
def popStep (cfg : Pop3Cfg) (st : Pop3State) (line : Str) : PopOutcome :=
  match parseVerb line with
  | PopVerb.vEmpty => PopOutcome.cont st
  | PopVerb.vQuit =>
    match st.mb with
    | some msgs => PopOutcome.halt { st with fs := closeMailbox msgs st.fs } (some msgs)
    | none => PopOutcome.halt st none
  | PopVerb.vUser =>
    if st.txn then PopOutcome.cont st
    else if line.length < 5 then PopOutcome.cont st
    else PopOutcome.cont { st with user := line.drop 5 }
  | PopVerb.vPass =>
    if st.txn then PopOutcome.cont st
    else if st.user = [] then PopOutcome.cont st
    else if line.length < 5 then PopOutcome.cont st
    else if st.user = str "mailbox@" ++ cfg.domain ∧ line.drop 5 = cfg.password then
      PopOutcome.cont { st with mb := some (openMailbox st.fs), txn := true }
    else PopOutcome.cont st
  | PopVerb.vList =>
    match st.mb, st.txn with
    | some msgs, true =>
      match doLIST msgs line with
      | Except.error _ => PopOutcome.panicked st
      | Except.ok _ => PopOutcome.cont st
    | _, _ => PopOutcome.cont st
  | PopVerb.vDele =>
    match st.mb, st.txn with
    | some msgs, true =>
      match getRequestedMessage msgs line with
      | none => PopOutcome.cont st
      | some pos =>
        if (msgs.getD pos ⟨[], 0, 0, false⟩).deleted then PopOutcome.cont st
        else
          PopOutcome.cont { st with
            mb := some (msgs.set pos
              { msgs.getD pos ⟨[], 0, 0, false⟩ with deleted := true }) }
    | _, _ => PopOutcome.cont st
  | PopVerb.vRset =>
    match st.mb, st.txn with
    | some msgs, true => PopOutcome.cont { st with mb := some (resetMailbox msgs) }
    | _, _ => PopOutcome.cont st
  | PopVerb.vStat => PopOutcome.cont st
  | PopVerb.vRetr => PopOutcome.cont st
  | PopVerb.vNoop => PopOutcome.cont st
  | PopVerb.vUidl => PopOutcome.cont st
  | PopVerb.vCapa => PopOutcome.cont st
  | PopVerb.vOther => PopOutcome.cont st

/-- Run a session over the given client lines. The second component reports
whether the session ended through doQUIT (and the mailbox doQUIT saw);
a read error, disconnect, or panic ends the session without it. -/
def popRun (cfg : Pop3Cfg) (st : Pop3State) :
    List Str → Pop3State × Option (Option (List PopMessage))
  | [] => (st, none)
  | line :: rest =>
    match popStep cfg st line with
    | PopOutcome.cont st2 => popRun cfg st2 rest
    | PopOutcome.halt st2 q => (st2, some q)
    | PopOutcome.panicked st2 => (st2, none)

/-- True when `name` is the file of some deleted-marked message. -/
def isDeletedFile (msgs : List PopMessage) (name : Str) : Bool :=
  msgs.any (fun m => m.deleted && decide (m.filename = name))

/-! ## Statement vocabulary and concrete instances used by the claim
theorems and their witnesses -/

/-- An MX lookup that neither errors nor returns an empty record set. -/
def goodMX (lookupMX : Str → Option (List MXRecord)) (domain : Str) : Bool :=
  match lookupMX domain with
  | none => false
  | some mx => decide (1 ≤ mx.length)

/-- The single MX host the relay dials: mx[0].Host. -/
def mxHead (lookupMX : Str → Option (List MXRecord)) (domain : Str) : MXRecord :=
  match lookupMX domain with
  | none => ⟨[]⟩
  | some mx => mx.headD ⟨[]⟩

/-- The relay transaction attempted for recipient `r` of envelope `env`. -/
def attemptFor (lookupMX : Str → Option (List MXRecord)) (env : Envelope)
    (r : MailAddress) : RelayEvent :=
  RelayEvent.attempt (mxHead lookupMX (DomainForAddress r)).Host (str "25")
    env.MailFrom.Address r.Address env.Data

/-- Config with domain foo.com whose blacklist holds green@foo.com. -/
def cfgFoo : Config :=
  ⟨str "mx.foo.com", [⟨str "foo.com", str "pw", str "/md", [str "green@foo.com"]⟩]⟩

/-- Config with domain foo.com whose blacklist holds Green@foo.com (upper
case G, as in the spec scenario). -/
def cfgFooUpper : Config :=
  ⟨str "mx.foo.com", [⟨str "foo.com", str "pw", str "/md", [str "Green@foo.com"]⟩]⟩

/-- Config with domain example.com, mailbox password "test". -/
def cfgExample : Config :=
  ⟨str "mx.example.com", [⟨str "example.com", str "test", str "/md", []⟩]⟩

/-- base64 of "\x00mailbox@example.com\x00test". -/
def authPayloadGood : Str := str "AG1haWxib3hAZXhhbXBsZS5jb20AdGVzdA=="

/-- base64 of "\x00mailbox@example.com\x00wrong". -/
def authPayloadBadPw : Str := str "AG1haWxib3hAZXhhbXBsZS5jb20Ad3Jvbmc="

/-- base64 of "\x00onlyone" (two NUL-separated fields, not three). -/
def authPayloadTwoFields : Str := str "AG9ubHlvbmU="

/-- An envelope as submitted over SMTP, used for relay/DSN instances. -/
def envWillfail : Envelope :=
  ⟨some (str "1.2.3.4:5678"), str "client.test", ⟨[], str "from@sender.org"⟩,
   [⟨[], str "to@receive.net"⟩], str "Hello, World!", str "DATE-ORIG", str "m.willfail"⟩

def dsnParams0 : DSNParams :=
  ⟨str "failed to dial host", str "connection refused", str "DATE-NOW",
   str "1234", str "abcd1234", str "bndry77", str "rev.example.net"⟩

/-- The DSN envelope synthesized for envWillfail. -/
def dsnEnv0 : Envelope := deliverRelayFailure envWillfail (str "to@receive.net") dsnParams0

/-- MX oracle: lookup fails for x.test, succeeds for y.test. -/
def lookupMX0 (domain : Str) : Option (List MXRecord) :=
  if domain = str "x.test" then none else some [⟨str "mx.y.test"⟩]

/-- Envelope with two recipients, the first in the domain whose MX lookup
fails. -/
def envTwoRcpt : Envelope :=
  ⟨some (str "1.2.3.4:5678"), str "client.test", ⟨[], str "from@sender.org"⟩,
   [⟨[], str "a@x.test"⟩, ⟨[], str "b@y.test"⟩], str "payload", str "DATE-ORIG", str "m.2"⟩

/-- A two-message maildrop snapshot. -/
def popFs0 : List (Str × Str) :=
  [(str "/md/a.msg", str "abc"), (str "/md/b.msg", str "hello")]

def popMsgs0 : List PopMessage := openMailbox popFs0

/-- popMsgs0 after DELE 1. -/
def popMsgs1 : List PopMessage :=
  popMsgs0.set 0 { popMsgs0.getD 0 ⟨[], 0, 0, false⟩ with deleted := true }

def popCfg0 : Pop3Cfg := ⟨str "d.test", str "pw"⟩

def popSt0 : Pop3State := ⟨popFs0, none, false, []⟩

/-- A full session: authenticate, delete message 1, QUIT. -/
def popLinesQuit : List Str :=
  [str "USER mailbox@d.test", str "PASS pw", str "DELE 1", str "QUIT"]

/-- The same session aborted before QUIT (client disconnect). -/
def popLinesNoQuit : List Str :=
  [str "USER mailbox@d.test", str "PASS pw", str "DELE 1"]

/-- Envelope whose header block has two Subject: headers: the first matches
the send-as regex, the LAST (which the code inspects) does not; plus a
From: header with an angle-addr. -/
def cexTwoSubject : Envelope :=
  ⟨none, str "e", ⟨[], str "mailbox@d.com"⟩, [⟨[], str "u@v"⟩],
   str "Subject: a [sendas:x]\nSubject: b\nFrom: <u@v>\n\nbody",
   [], str "m.3"⟩

/-- Envelope of the spec's send-as scenario: one From:, one To:, one
Subject: carrying a sendas tag. -/
def cexSendAs : Envelope :=
  ⟨none, str "e", ⟨[], str "mailbox@example.com"⟩, [⟨[], str "dest@x.net"⟩],
   str "From: <mailbox@example.com>\nTo: <dest@x.net>\nSubject: Send-as relay [sendas:source]\n\nhello",
   [], str "m.4"⟩

/-- Sample envelope for the C8 delivery-format instances: data carries the
synthesized Received trace. -/
def envTraced : Envelope :=
  let base : Envelope :=
    ⟨some (str "9.8.7.6:25"), str "greet.test", ⟨[], str "smith@bar.com"⟩,
     [⟨[], str "jones@foo.com"⟩], [], str "DATE-R", str "m.42"⟩
  { base with
    Data := getReceivedInfo (str "greet.test") (str "9.8.7.6") (str "mx.foo.com")
        true false (str "PLAINTEXT") base ++ str "raw message\r\n" }

/-! # Helper lemmas -/

theorem isPrefixOf_self_append (p t : Str) : p.isPrefixOf (p ++ t) = true := by
  induction p with
  | nil => simp [List.isPrefixOf]
  | cons c cs ih => simp [List.isPrefixOf, ih]

theorem findSubIdxAux_isSome (pat a b : Str) (i : Nat) :
    (findSubIdxAux pat (a ++ (pat ++ b)) i).isSome = true := by
  induction a generalizing i with
  | nil =>
    unfold findSubIdxAux
    simp [isPrefixOf_self_append]
  | cons c cs ih =>
    unfold findSubIdxAux
    simp only [List.cons_append]
    split
    · rfl
    · exact ih (i + 1)

/-- Any string of the shape a ++ pat ++ b contains pat. -/
theorem containsSub_append_mid (a pat b : Str) :
    containsSub (a ++ pat ++ b) pat = true := by
  have := findSubIdxAux_isSome pat a b 0
  simpa [containsSub, findSubIdx, List.append_assoc] using this

theorem mem_of_mem_takeWhile {p : Char → Bool} {s : Str} {c : Char}
    (h : c ∈ s.takeWhile p) : c ∈ s :=
  (List.takeWhile_sublist p).subset h

theorem mem_of_mem_dropWhile {p : Char → Bool} {s : Str} {c : Char}
    (h : c ∈ s.dropWhile p) : c ∈ s :=
  (List.dropWhile_sublist p).subset h

theorem mem_of_mem_trimSpace {s : Str} {c : Char} (h : c ∈ trimSpace s) : c ∈ s := by
  unfold trimSpace at h
  rw [List.mem_reverse] at h
  have h2 := mem_of_mem_dropWhile h
  rw [List.mem_reverse] at h2
  exact mem_of_mem_dropWhile h2

/-- The address returned by parseAddress is made of characters of the input
(ParseAddress never rewrites the addr-spec text). -/
theorem parseAddress_mem {s : Str} {a : MailAddress} (h : parseAddress s = some a)
    {c : Char} (hc : c ∈ a.Address) : c ∈ s := by
  unfold parseAddress at h
  cases hidx : findSubIdx s (str "<") with
  | some i =>
    rw [hidx] at h
    simp only at h
    cases hdw : (s.drop (i + 1)).dropWhile (fun c => decide (c ≠ '>')) with
    | nil => rw [hdw] at h; exact absurd h (by simp)
    | cons x tail =>
      rw [hdw] at h
      simp only at h
      split at h
      · cases h
        simp only at hc
        exact (List.drop_sublist (i + 1) s).subset (mem_of_mem_takeWhile hc)
      · exact absurd h (by simp)
  | none =>
    rw [hidx] at h
    simp only at h
    split at h
    · cases h
      simp only at hc
      exact mem_of_mem_trimSpace hc
    · exact absurd h (by simp)

theorem toNat_ofNat_small {n : Nat} (h : n < 55296) : (Char.ofNat n).toNat = n := by
  unfold Char.ofNat
  rw [dif_pos (Or.inl h)]
  unfold Char.ofNatAux Char.toNat
  simp [UInt32.ofNat', UInt32.toNat]

theorem lowerChar_not_upper (c : Char) : isAsciiUpper (lowerChar c) = false := by
  unfold lowerChar isAsciiUpper
  split
  · next hc =>
    have hval : (Char.ofNat (c.toNat + 32)).toNat = c.toNat + 32 :=
      toNat_ofNat_small (by omega)
    simp only [Bool.and_eq_false_iff, decide_eq_false_iff_not]
    right
    rw [hval]
    omega
  · next hc =>
    rw [Decidable.not_and_iff_or_not] at hc
    simp only [Bool.and_eq_false_iff, decide_eq_false_iff_not]
    rcases hc with h | h
    · left; omega
    · right; omega

theorem lowerStr_not_upper {s : Str} {c : Char} (h : c ∈ lowerStr s) :
    isAsciiUpper c = false := by
  unfold lowerStr at h
  obtain ⟨d, _, rfl⟩ := List.mem_map.mp h
  exact lowerChar_not_upper d

theorem closeMailbox_eq_filter (msgs : List PopMessage) (fs : List (Str × Str)) :
    closeMailbox msgs fs = fs.filter (fun f => !(isDeletedFile msgs f.1)) := by
  induction msgs generalizing fs with
  | nil => simp [closeMailbox, isDeletedFile]
  | cons m ms ih =>
    rw [closeMailbox, ih]
    cases hd : m.deleted with
    | false =>
      rw [if_neg (by simp [hd])]
      apply List.filter_congr
      intro x _
      simp [isDeletedFile, hd]
    | true =>
      rw [if_pos (by simp [hd]), osRemove, List.filter_filter]
      apply List.filter_congr
      intro x _
      simp [isDeletedFile, hd, Bool.and_comm, eq_comm]

set_option maxHeartbeats 1000000 in
theorem popStep_cont_fs {cfg : Pop3Cfg} {st : Pop3State} {line : Str}
    {st2 : Pop3State} (h : popStep cfg st line = PopOutcome.cont st2) :
    st2.fs = st.fs := by
  unfold popStep at h
  repeat' (first | split at h | dsimp only at h)
  all_goals (cases h <;> rfl)

set_option maxHeartbeats 1000000 in
theorem popStep_halt_some_fs {cfg : Pop3Cfg} {st : Pop3State} {line : Str}
    {st2 : Pop3State} {msgs : List PopMessage}
    (h : popStep cfg st line = PopOutcome.halt st2 (some msgs)) :
    st2.fs = closeMailbox msgs st.fs := by
  unfold popStep at h
  repeat' (first | split at h | dsimp only at h)
  all_goals (cases h <;> rfl)

set_option maxHeartbeats 1000000 in
theorem popStep_halt_none_fs {cfg : Pop3Cfg} {st : Pop3State} {line : Str}
    {st2 : Pop3State}
    (h : popStep cfg st line = PopOutcome.halt st2 none) :
    st2.fs = st.fs := by
  unfold popStep at h
  repeat' (first | split at h | dsimp only at h)
  all_goals (cases h <;> rfl)

set_option maxHeartbeats 1000000 in
theorem popStep_panicked_fs {cfg : Pop3Cfg} {st : Pop3State} {line : Str}
    {st2 : Pop3State} (h : popStep cfg st line = PopOutcome.panicked st2) :
    st2.fs = st.fs := by
  unfold popStep at h
  repeat' (first | split at h | dsimp only at h)
  all_goals (cases h <;> rfl)

theorem popRun_fs (cfg : Pop3Cfg) (lines : List Str) (st : Pop3State) :
    ((popRun cfg st lines).2 = none → (popRun cfg st lines).1.fs = st.fs) ∧
    (∀ msgs, (popRun cfg st lines).2 = some (some msgs) →
      (popRun cfg st lines).1.fs = closeMailbox msgs st.fs) ∧
    ((popRun cfg st lines).2 = some none → (popRun cfg st lines).1.fs = st.fs) := by
  induction lines generalizing st with
  | nil =>
    refine ⟨fun _ => rfl, fun msgs hq => ?_, fun hq => ?_⟩ <;> simp [popRun] at hq
  | cons line rest ih =>
    rw [popRun]
    cases hstep : popStep cfg st line with
    | cont st2 =>
      have hfs := popStep_cont_fs hstep
      refine ⟨fun hq => ?_, fun msgs hq => ?_, fun hq => ?_⟩
      · rw [(ih st2).1 hq, hfs]
      · rw [(ih st2).2.1 msgs hq, hfs]
      · rw [(ih st2).2.2 hq, hfs]
    | halt st2 q =>
      refine ⟨fun hq => ?_, fun msgs hq => ?_, fun hq => ?_⟩
      · simp at hq
      · simp only [Option.some.injEq] at hq
        cases hq
        exact popStep_halt_some_fs hstep
      · simp only [Option.some.injEq] at hq
        cases hq
        exact popStep_halt_none_fs hstep
    | panicked st2 =>
      have hfs := popStep_panicked_fs hstep
      exact ⟨fun _ => hfs, fun msgs hq => by simp at hq, fun hq => by simp at hq⟩

theorem lastHdrIdxAux_no_match (pre : Str) (hs : List Str) (i acc : Nat)
    (h : ∀ x ∈ hs, pre.isPrefixOf x = false) :
    lastHdrIdxAux pre hs i acc = acc := by
  induction hs generalizing i acc with
  | nil => rfl
  | cons y ys ih =>
    rw [lastHdrIdxAux, h y (by simp)]
    simp only [Bool.false_eq_true, if_false]
    exact ih (i + 1) acc (fun x hx => h x (by simp [hx]))

theorem lastHdrIdxAux_append (pre : Str) (xs : List Str) (y : Str) (ys : List Str)
    (hy : pre.isPrefixOf y = true) (hys : ∀ x ∈ ys, pre.isPrefixOf x = false)
    (i acc : Nat) :
    lastHdrIdxAux pre (xs ++ y :: ys) i acc = i + xs.length := by
  induction xs generalizing i acc with
  | nil =>
    simp only [List.nil_append, List.length_nil, Nat.add_zero]
    rw [lastHdrIdxAux, hy]
    simp only [if_true]
    exact lastHdrIdxAux_no_match pre ys (i + 1) i hys
  | cons x xs ih =>
    simp only [List.cons_append, List.length_cons]
    rw [lastHdrIdxAux]
    rw [ih (i + 1)]
    omega

/-- When exactly one later-most header carries the prefix, the Go loop finds
it. -/
theorem lastHdrIdx_append (pre : Str) (xs : List Str) (y : Str) (ys : List Str)
    (hy : pre.isPrefixOf y = true) (hys : ∀ x ∈ ys, pre.isPrefixOf x = false) :
    lastHdrIdx pre (xs ++ y :: ys) = xs.length := by
  unfold lastHdrIdx
  rw [lastHdrIdxAux_append pre xs y ys hy hys 0 0]
  omega

/-- Mapping a two-point update over the enumerated list is a double set. -/
theorem enum_map_two_point (hs : List Str) (sI fI : Nat) (F G : Str → Str)
    (hne : sI ≠ fI) (hsI : sI < hs.length) (hfI : fI < hs.length) :
    hs.enum.map (fun p => if p.1 = sI then F p.2 else if p.1 = fI then G p.2 else p.2)
      = (hs.set sI (F (hs.getD sI []))).set fI (G (hs.getD fI [])) := by
  apply List.ext_getElem?
  intro n
  rw [List.getElem?_map]
  show (List.enumFrom 0 hs)[n]?.map _ = _
  rw [List.getElem?_enumFrom, List.getElem?_set, List.getElem?_set]
  by_cases hn : n < hs.length
  · rw [List.getElem?_eq_getElem hn]
    simp only [Option.map_some', Nat.zero_add]
    by_cases h1 : n = sI
    · subst h1
      rw [if_pos rfl, if_neg (by omega), if_pos rfl, if_pos (by simpa using hn)]
      rw [List.getD_eq_getElem hs [] hn]
    · by_cases h2 : n = fI
      · subst h2
        rw [if_neg (by omega), if_pos rfl, if_pos rfl, if_pos (by simpa using hn)]
        rw [List.getD_eq_getElem hs [] hn]
      · rw [if_neg (by omega), if_neg (by omega), if_neg (by omega), if_neg (by omega)]
  · rw [List.getElem?_eq_none (by omega)]
    rw [if_neg (by omega), if_neg (by omega)]
    rfl

/-! # Claim theorems -/

/-- C2 (code divergence at the failing input): in a snapshot of two messages
(sizes 3 and 5) with message 1 marked deleted by DELE 1, STAT reports 1
message totaling 5 bytes and UIDL lists only message 2, but the no-argument
LIST scan listing still prints an entry for the deleted message 1 (two
entries totaling 8 bytes), so the STAT totals do not equal the count and
size sum of the LIST entries; LIST with the argument 1 and a repeated
DELE 1 answer -ERR, and the deleted message's file is not yet unlinked. -/
theorem pop3_deleted_visibility_divergence :
    statCounts popMsgs1 = (1, 5) ∧
    doLIST popMsgs1 (str "LIST") =
      Except.ok [str "+OK scan listing", str "1 3", str "2 5", str "."] ∧
    doUIDL popMsgs1 = [str "+OK unique-id listing", str "2 b", str "."] ∧
    doLIST popMsgs1 (str "LIST 1") = Except.ok [str "-ERR no such message - deleted"] ∧
    popStep popCfg0 ⟨popFs0, some popMsgs1, true, str "mailbox@d.test"⟩ (str "DELE 1") =
      PopOutcome.cont ⟨popFs0, some popMsgs1, true, str "mailbox@d.test"⟩ ∧
    (popRun popCfg0 popSt0 popLinesNoQuit).1.fs = popFs0 :=
  ⟨by decide, by rfl, by decide, by rfl, by rfl, by decide⟩

/-- C9: the POP3 LIST command with the non-positive argument 0 reaches
Mailbox.GetMessage unvalidated; GetMessage checks only the upper bound
before indexing messages[id-1], so "LIST 0" makes the session panic (index
out of range) instead of answering -ERR, while RETR 0 and DELE 0 are
rejected by getRequestedMessage's lower-bound check without touching
GetMessage. -/
theorem pop3_list_zero_panics :
    doLIST popMsgs0 (str "LIST 0") = Except.error () ∧
    GetMessage popMsgs0 0 = Except.error () ∧
    GetMessage popMsgs0 (-3) = Except.error () ∧
    GetMessage popMsgs0 5 = Except.ok none ∧
    getRequestedMessage popMsgs0 (str "RETR 0") = none ∧
    getRequestedMessage popMsgs0 (str "DELE 0") = none ∧
    popStep popCfg0 ⟨popFs0, some popMsgs0, true, str "mailbox@d.test"⟩ (str "LIST 0") =
      PopOutcome.panicked ⟨popFs0, some popMsgs0, true, str "mailbox@d.test"⟩ ∧
    popStep popCfg0 ⟨popFs0, some popMsgs0, true, str "mailbox@d.test"⟩ (str "RETR 0") =
      PopOutcome.cont ⟨popFs0, some popMsgs0, true, str "mailbox@d.test"⟩ ∧
    popStep popCfg0 ⟨popFs0, some popMsgs0, true, str "mailbox@d.test"⟩ (str "DELE 0") =
      PopOutcome.cont ⟨popFs0, some popMsgs0, true, str "mailbox@d.test"⟩ :=
  ⟨by rfl, by rfl, by rfl, by rfl, by rfl, by rfl, by rfl, by rfl, by rfl⟩

/-- C3 counterexample: with foo.com configured and green@foo.com
blacklisted, the blacklisted address is rejected with ReplyMailboxUnallowed
(553), not 550 as the claim states; and with the blacklist entry spelled
Green@foo.com (the spec scenario's casing), the wire command
RCPT TO:<Green@foo.com> is ACCEPTED with 250, because parsePath lowercases
the client path while the blacklist comparison is exact — membership is not
case-insensitive. -/
theorem verifyAddress_counterexample :
    VerifyAddress cfgFoo ⟨[], str "green@foo.com"⟩ = ReplyMailboxUnallowed ∧
    ReplyMailboxUnallowed.Code = 553 ∧
    VerifyAddress cfgFooUpper ⟨[], str "green@foo.com"⟩ = ReplyOK ∧
    (doRCPT cfgFooUpper (str "RCPT TO:<Green@foo.com>")).2 = ReplyOK ∧
    (doRCPT cfgFoo (str "RCPT TO:<Green@foo.com>")).2 = ReplyMailboxUnallowed := by
  decide

/-- C3 (amended): VerifyAddress answers ReplyOK iff the address's domain
equals the Domain of a configured server and the address is not an exact,
case-sensitive match of an entry of that server's BlacklistedAddresses; an
exact blacklist match is rejected with ReplyMailboxUnallowed (553), and an
address whose domain matches no configured server with ReplyBadMailbox
(550). -/
theorem verifyAddress_amended (cfg : Config) (addr : MailAddress) :
    (VerifyAddress cfg addr = ReplyOK ↔
      ∃ s, configForAddress cfg addr = some s ∧ addr.Address ∉ s.BlacklistedAddresses) ∧
    (∀ s, configForAddress cfg addr = some s → addr.Address ∈ s.BlacklistedAddresses →
      VerifyAddress cfg addr = ReplyMailboxUnallowed) ∧
    (configForAddress cfg addr = none ↔
      ∀ s ∈ cfg.Servers, s.Domain ≠ DomainForAddress addr) ∧
    (configForAddress cfg addr = none → VerifyAddress cfg addr = ReplyBadMailbox) := by
  refine ⟨?_, ?_, ?_, ?_⟩
  · unfold VerifyAddress
    cases hc : configForAddress cfg addr with
    | none =>
      simp only [hc]
      constructor
      · intro h; exact absurd h (by decide)
      · rintro ⟨s, hs, _⟩; cases hs
    | some s =>
      simp only [hc]
      split
      · next hany =>
        constructor
        · intro h; exact absurd h (by decide)
        · rintro ⟨s2, hs2, hmem⟩
          cases hs2
          rw [List.any_eq_true] at hany
          obtain ⟨b, hb, hbe⟩ := hany
          rw [decide_eq_true_eq] at hbe
          exact absurd (hbe ▸ hb) hmem
      · next hany =>
        constructor
        · intro _
          refine ⟨s, rfl, fun hmem => hany ?_⟩
          rw [List.any_eq_true]
          exact ⟨addr.Address, hmem, by simp⟩
        · intro _; rfl
  · intro s hs hmem
    have hany : (s.BlacklistedAddresses.any fun b => decide (b = addr.Address)) = true := by
      rw [List.any_eq_true]
      exact ⟨addr.Address, hmem, by simp⟩
    unfold VerifyAddress
    rw [hs]
    simp [hany]
  · unfold configForAddress
    rw [List.find?_eq_none]
    simp
  · intro hc
    unfold VerifyAddress
    rw [hc]

/-- Witness for verifyAddress_amended at the foo.com configuration. -/
theorem verifyAddress_amended_witness :
    VerifyAddress cfgFoo ⟨[], str "green@foo.com"⟩ = ReplyMailboxUnallowed ∧
    VerifyAddress cfgFoo ⟨[], str "jones@foo.com"⟩ = ReplyOK ∧
    VerifyAddress cfgFoo ⟨[], str "jones@bar.com"⟩ = ReplyBadMailbox :=
  ⟨(verifyAddress_amended cfgFoo ⟨[], str "green@foo.com"⟩).2.1
      ⟨str "foo.com", str "pw", str "/md", [str "green@foo.com"]⟩
      (by decide) (by decide),
   (verifyAddress_amended cfgFoo ⟨[], str "jones@foo.com"⟩).1.mpr
      ⟨⟨str "foo.com", str "pw", str "/md", [str "green@foo.com"]⟩,
        by decide, by decide⟩,
   (verifyAddress_amended cfgFoo ⟨[], str "jones@bar.com"⟩).2.2.2 (by decide)⟩

/-- C4 (spec-modelled doAUTH, Authenticate from src): for an AUTH PLAIN
exchange, a base64-undecodable payload and a decoded payload that is not
exactly three NUL-separated fields are answered 501; matching credentials
are answered 235 (ReplyAuthOK) and the authc identity is recorded;
mismatched credentials are answered 535; and any AUTH issued after a
successful authentication — or outside a TLS-protected Initial state — is
answered 503. -/
theorem doAUTH_replies (cfg : Config) (tlsActive stInit : Bool) (prev payload : Str) :
    ((¬stInit ∨ ¬tlsActive) → doAUTH cfg tlsActive stInit prev payload = (ReplyBadSequence, prev)) ∧
    (prev ≠ [] → (doAUTH cfg tlsActive stInit prev payload).1.Code = 503) ∧
    (base64Decode payload = none →
      (doAUTH cfg true true [] payload).1 = ReplySyntaxError) ∧
    (∀ bytes, base64Decode payload = some bytes →
      (splitOnChar (Char.ofNat 0) (bytes.map Char.ofNat)).length ≠ 3 →
      (doAUTH cfg true true [] payload).1 = ReplySyntaxError) ∧
    (∀ bytes az ac pw, base64Decode payload = some bytes →
      splitOnChar (Char.ofNat 0) (bytes.map Char.ofNat) = [az, ac, pw] →
      (Authenticate cfg az ac pw = true →
        doAUTH cfg true true [] payload = (ReplyAuthOK, ac)) ∧
      (Authenticate cfg az ac pw = false →
        (doAUTH cfg true true [] payload).1.Code = 535)) := by
  refine ⟨?_, ?_, ?_, ?_, ?_⟩
  · intro h
    unfold doAUTH
    rw [if_pos h]
  · intro hprev
    unfold doAUTH
    by_cases h : ¬stInit = true ∨ ¬tlsActive = true
    · rw [if_pos h]; rfl
    · rw [if_neg h, if_pos hprev]
  · intro hdec
    unfold doAUTH
    rw [if_neg (by simp), if_neg (by simp), hdec]
  · intro bytes hdec hlen
    unfold doAUTH
    rw [if_neg (by simp), if_neg (by simp), hdec]
    simp only
    cases hsp : splitOnChar (Char.ofNat 0) (bytes.map Char.ofNat) with
    | nil => rfl
    | cons a t =>
      cases t with
      | nil => rfl
      | cons b t2 =>
        cases t2 with
        | nil => rfl
        | cons c t3 =>
          cases t3 with
          | nil => exact absurd (by rw [hsp]; rfl) hlen
          | cons d t4 => rfl
  · intro bytes az ac pw hdec hsp
    constructor
    · intro hauth
      unfold doAUTH
      rw [if_neg (by simp), if_neg (by simp), hdec]
      simp only
      rw [hsp]
      simp only [hauth, if_true]
    · intro hauth
      unfold doAUTH
      rw [if_neg (by simp), if_neg (by simp), hdec]
      simp only
      rw [hsp]
      simp only [hauth]
      rfl

/-- Witness for doAUTH_replies: concrete AUTH PLAIN exchanges against the
example.com configuration. -/
theorem doAUTH_replies_witness :
    doAUTH cfgExample true true [] authPayloadGood =
      (ReplyAuthOK, str "mailbox@example.com") ∧
    (doAUTH cfgExample true true [] authPayloadBadPw).1.Code = 535 ∧
    (doAUTH cfgExample true true [] (str "not base64!")).1 = ReplySyntaxError ∧
    (doAUTH cfgExample true true [] authPayloadTwoFields).1 = ReplySyntaxError ∧
    (doAUTH cfgExample true true (str "mailbox@example.com") authPayloadGood).1.Code = 503 ∧
    doAUTH cfgExample false true [] authPayloadGood = (ReplyBadSequence, []) :=
  ⟨((doAUTH_replies cfgExample true true [] authPayloadGood).2.2.2.2
      ((base64Decode authPayloadGood).getD [])
      (str "")
      (str "mailbox@example.com")
      (str "test")
      (by rfl) (by rfl)).1 (by rfl),
   ((doAUTH_replies cfgExample true true [] authPayloadBadPw).2.2.2.2
      ((base64Decode authPayloadBadPw).getD [])
      (str "")
      (str "mailbox@example.com")
      (str "wrong")
      (by rfl) (by rfl)).2 (by rfl),
   (doAUTH_replies cfgExample true true [] (str "not base64!")).2.2.1 (by rfl),
   (doAUTH_replies cfgExample true true [] authPayloadTwoFields).2.2.2.1
      ((base64Decode authPayloadTwoFields).getD []) (by rfl) (by decide),
   (doAUTH_replies cfgExample true true (str "mailbox@example.com") authPayloadGood).2.1
      (by decide),
   (doAUTH_replies cfgExample false true [] authPayloadGood).1 (by simp)⟩

theorem relayAux_all_good (lookupMX : Str → Option (List MXRecord)) (env : Envelope)
    (rs : List MailAddress)
    (h : ∀ r ∈ rs, goodMX lookupMX (DomainForAddress r) = true) :
    RelayMessageAux lookupMX env rs = rs.map (attemptFor lookupMX env) := by
  induction rs with
  | nil => rfl
  | cons r rest ih =>
    have hr := h r (by simp)
    rw [RelayMessageAux]
    unfold goodMX at hr
    cases hl : lookupMX (DomainForAddress r) with
    | none => rw [hl] at hr; exact absurd hr (by simp)
    | some mx =>
      rw [hl] at hr
      rw [decide_eq_true_eq] at hr
      simp only [hl]
      rw [if_neg (by omega)]
      rw [List.map_cons, ih (fun x hx => h x (by simp [hx]))]
      unfold attemptFor mxHead
      simp only [hl]

theorem relayAux_stops (lookupMX : Str → Option (List MXRecord)) (env : Envelope)
    (pre : List MailAddress) (r : MailAddress) (post : List MailAddress)
    (hpre : ∀ x ∈ pre, goodMX lookupMX (DomainForAddress x) = true)
    (hr : goodMX lookupMX (DomainForAddress r) = false) :
    RelayMessageAux lookupMX env (pre ++ r :: post) =
      pre.map (attemptFor lookupMX env) ++ [RelayEvent.dsn r.Address] := by
  induction pre with
  | nil =>
    rw [List.nil_append, RelayMessageAux]
    unfold goodMX at hr
    cases hl : lookupMX (DomainForAddress r) with
    | none => simp only [hl]; rfl
    | some mx =>
      rw [hl] at hr
      rw [decide_eq_false_iff_not] at hr
      simp only [hl]
      rw [if_pos (by omega)]
      rfl
  | cons x pre2 ih =>
    have hx := hpre x (by simp)
    rw [List.cons_append, RelayMessageAux]
    unfold goodMX at hx
    cases hl : lookupMX (DomainForAddress x) with
    | none => rw [hl] at hx; exact absurd hx (by simp)
    | some mx =>
      rw [hl] at hx
      rw [decide_eq_true_eq] at hx
      simp only [hl]
      rw [if_neg (by omega)]
      rw [List.map_cons, List.cons_append]
      rw [ih (fun y hy => hpre y (by simp [hy]))]
      unfold attemptFor mxHead
      simp only [hl]

/-- C6 (amended): the relay loop handles env.RcptTo in order; every
recipient whose domain's MX lookup succeeds with a non-empty record set is
attempted with exactly one SMTP transaction against the single
highest-priority MX host (mx[0]) on port 25, with MAIL FROM the envelope
sender, one RCPT TO, and the envelope data written verbatim; but on the
first recipient whose MX lookup fails or is empty a DSN is synthesized and
the whole loop returns — the remaining recipients in rcpt_to are NOT
attempted. -/
theorem relayMessage_amended (lookupMX : Str → Option (List MXRecord)) (env : Envelope) :
    ((∀ r ∈ env.RcptTo, goodMX lookupMX (DomainForAddress r) = true) →
      RelayMessage lookupMX env = env.RcptTo.map (attemptFor lookupMX env)) ∧
    (∀ pre r post, env.RcptTo = pre ++ r :: post →
      (∀ x ∈ pre, goodMX lookupMX (DomainForAddress x) = true) →
      goodMX lookupMX (DomainForAddress r) = false →
      RelayMessage lookupMX env = pre.map (attemptFor lookupMX env) ++
        [RelayEvent.dsn r.Address]) := by
  constructor
  · intro h
    unfold RelayMessage
    exact relayAux_all_good lookupMX env env.RcptTo h
  · intro pre r post hsplit hpre hr
    unfold RelayMessage
    rw [hsplit]
    exact relayAux_stops lookupMX env pre r post hpre hr

/-- C6 counterexample: envelope with recipients a@x.test then b@y.test,
where x.test's MX lookup fails and y.test's succeeds; the relay emits only
the DSN for a@x.test and never attempts b@y.test, although the claim says
the remaining recipients are still attempted. -/
theorem relayMessage_counterexample :
    RelayMessage lookupMX0 envTwoRcpt = [RelayEvent.dsn (str "a@x.test")] ∧
    envTwoRcpt.RcptTo.length = 2 ∧
    goodMX lookupMX0 (str "y.test") = true ∧
    (RelayMessage lookupMX0 envTwoRcpt).length = 1 := by
  refine ⟨by rfl, by rfl, by rfl, by rfl⟩

/-- Witness for relayMessage_amended at the two-recipient envelope. -/
theorem relayMessage_amended_witness :
    RelayMessage lookupMX0 envTwoRcpt = [RelayEvent.dsn (str "a@x.test")] ∧
    RelayMessage lookupMX0 { envTwoRcpt with RcptTo := [⟨[], str "b@y.test"⟩] } =
      [RelayEvent.attempt (str "mx.y.test") (str "25") (str "from@sender.org")
        (str "b@y.test") (str "payload")] :=
  ⟨(relayMessage_amended lookupMX0 envTwoRcpt).2 [] ⟨[], str "a@x.test"⟩
      [⟨[], str "b@y.test"⟩] (by rfl)
      (fun x hx => absurd hx (List.not_mem_nil x)) (by rfl),
   by
    have h := (relayMessage_amended lookupMX0
        { envTwoRcpt with RcptTo := [⟨[], str "b@y.test"⟩] }).1
      (fun r hr => by
        rcases List.mem_singleton.mp hr with rfl
        rfl)
    rw [h]
    rfl⟩

/-- C7: a maildrop file is unlinked only when the session issues QUIT (from
the TRANSACTION state, where a mailbox is open): on such a QUIT the
filesystem keeps exactly the files not marked deleted in the session's
snapshot, while a session ending any other way — read error, disconnect
without QUIT, or a panic — leaves the filesystem identical to its
pre-session state (a QUIT from AUTHORIZATION, with no mailbox open, also
unlinks nothing). -/
theorem pop3_unlink_only_on_quit (cfg : Pop3Cfg) (st : Pop3State) (lines : List Str) :
    ((popRun cfg st lines).2 = none → (popRun cfg st lines).1.fs = st.fs) ∧
    ((popRun cfg st lines).2 = some none → (popRun cfg st lines).1.fs = st.fs) ∧
    (∀ msgs, (popRun cfg st lines).2 = some (some msgs) →
      (popRun cfg st lines).1.fs =
        st.fs.filter (fun f => !(isDeletedFile msgs f.1))) := by
  obtain ⟨h1, h2, h3⟩ := popRun_fs cfg lines st
  exact ⟨h1, h3, fun msgs hq => by rw [h2 msgs hq, closeMailbox_eq_filter]⟩

/-- Witness for pop3_unlink_only_on_quit: a session that deletes message 1
and QUITs unlinks exactly that file; the same session without the QUIT
leaves the maildrop untouched. -/
theorem pop3_unlink_only_on_quit_witness :
    (popRun popCfg0 popSt0 popLinesQuit).1.fs =
      popFs0.filter (fun f => !(isDeletedFile popMsgs1 f.1)) ∧
    popFs0.filter (fun f => !(isDeletedFile popMsgs1 f.1)) =
      [(str "/md/b.msg", str "hello")] ∧
    (popRun popCfg0 popSt0 popLinesNoQuit).1.fs = popSt0.fs :=
  ⟨(pop3_unlink_only_on_quit popCfg0 popSt0 popLinesQuit).2.2 popMsgs1 (by rfl),
   by decide,
   (pop3_unlink_only_on_quit popCfg0 popSt0 popLinesNoQuit).1 (by rfl)⟩

/-- Every character of the path parsePath accepts is lowercased. -/
theorem parsePath_fst_lower (line cmd : Str) {c : Char}
    (h : c ∈ (parsePath line cmd).1) : isAsciiUpper c = false := by
  unfold parsePath at h
  dsimp only at h
  split at h
  · exact absurd h (List.not_mem_nil c)
  · split at h
    · exact absurd h (List.not_mem_nil c)
    · split at h
      · exact absurd h (List.not_mem_nil c)
      · exact lowerStr_not_upper h

/-- C10: parsePath lowercases the client-supplied path — all bytes of the
parameters up to and including the first ">" — before address parsing, so
the mail_from address accepted by MAIL FROM and every rcpt_to address
accepted by RCPT TO contain no ASCII uppercase letters, whatever casing the
client sent; VerifyAddress (routing/blacklist) and delivery therefore only
ever see the lowercased form. -/
theorem parsePath_lowercases (cfg : Config) (line : Str) :
    (∀ cmd k, ¬ line.length < cmd.length →
      upperStr cmd = upperStr (line.take cmd.length) →
      findSubIdx (line.drop cmd.length) (str ">") = some k →
      parsePath line cmd =
        (lowerStr ((line.drop cmd.length).take (k + 1)), ReplyOK)) ∧
    (∀ a r, doMAIL line = (some a, r) →
      r = ReplyOK ∧ ∀ c ∈ a.Address, isAsciiUpper c = false) ∧
    (∀ a r, doRCPT cfg line = (some a, r) →
      r = ReplyOK ∧ ∀ c ∈ a.Address, isAsciiUpper c = false) := by
  refine ⟨?_, ?_, ?_⟩
  · intro cmd k h1 h2 h3
    unfold parsePath
    rw [if_neg h1, if_neg (not_not_intro h2)]
    dsimp only
    rw [h3]
  · intro a r h
    unfold doMAIL at h
    dsimp only at h
    split at h
    · exact absurd h (by simp)
    · split at h
      · exact absurd h (by simp)
      · next a2 hpa =>
        rw [Prod.mk.injEq] at h
        obtain ⟨ha, hr⟩ := h
        cases ha
        refine ⟨hr.symm, fun c hc => ?_⟩
        exact parsePath_fst_lower line (str "MAIL FROM:")
          (parseAddress_mem hpa hc)
  · intro a r h
    unfold doRCPT at h
    dsimp only at h
    split at h
    · exact absurd h (by simp)
    · split at h
      · exact absurd h (by simp)
      · next a2 hpa =>
        split at h
        · exact absurd h (by simp)
        · rw [Prod.mk.injEq] at h
          obtain ⟨ha, hr⟩ := h
          cases ha
          refine ⟨hr.symm, fun c hc => ?_⟩
          exact parsePath_fst_lower line (str "RCPT TO:")
            (parseAddress_mem hpa hc)

/-- Witness for parsePath_lowercases: the mixed-case RCPT TO:<JoNes@FOO.com>
is accepted as the all-lowercase jones@foo.com. -/
theorem parsePath_lowercases_witness :
    (doRCPT cfgFoo (str "RCPT TO:<JoNes@FOO.com>")).2 = ReplyOK ∧
    isAsciiUpper 'j' = false ∧
    parsePath (str "RCPT TO:<JoNes@FOO.com>") (str "RCPT TO:") =
      (lowerStr (((str "RCPT TO:<JoNes@FOO.com>").drop 8).take 15), ReplyOK) :=
  ⟨((parsePath_lowercases cfgFoo (str "RCPT TO:<JoNes@FOO.com>")).2.2
      ⟨[], str "jones@foo.com"⟩
      ((doRCPT cfgFoo (str "RCPT TO:<JoNes@FOO.com>")).2) (by rfl)).1,
   ((parsePath_lowercases cfgFoo (str "RCPT TO:<JoNes@FOO.com>")).2.2
      ⟨[], str "jones@foo.com"⟩ ReplyOK (by rfl)).2 'j' (by decide),
   (parsePath_lowercases cfgFoo (str "RCPT TO:<JoNes@FOO.com>")).1
      (str "RCPT TO:") 14 (by decide) (by decide) (by rfl)⟩

theorem findSubIdxAux_isSome_shift (pat t : Str) (i j : Nat) :
    (findSubIdxAux pat t i).isSome = (findSubIdxAux pat t j).isSome := by
  induction t generalizing i j with
  | nil =>
    unfold findSubIdxAux
    split <;> rfl
  | cons c rest ih =>
    unfold findSubIdxAux
    split <;> simp [ih (i + 1) (j + 1)]

theorem containsSub_append_of_right (a b pat : Str)
    (h : containsSub b pat = true) : containsSub (a ++ b) pat = true := by
  induction a with
  | nil => simpa using h
  | cons c rest ih =>
    unfold containsSub findSubIdx at ih ⊢
    rw [List.cons_append]
    unfold findSubIdxAux
    split
    · rfl
    · rw [findSubIdxAux_isSome_shift pat (rest ++ b) 1 0]
      exact ih

theorem containsSub_of_eq_append (s a pat b : Str) (h : s = a ++ (pat ++ b)) :
    containsSub s pat = true := by
  rw [h]
  have := containsSub_append_mid a pat b
  simpa [List.append_assoc] using this

theorem containsSub_self_append (pat b : Str) : containsSub (pat ++ b) pat = true :=
  containsSub_of_eq_append _ [] _ b (by simp)

theorem containsSub_head2 (p1 p2 rest : Str) :
    containsSub (p1 ++ (p2 ++ rest)) (p1 ++ p2) = true :=
  containsSub_of_eq_append _ [] _ rest (by simp [List.append_assoc])

theorem containsSub_head3 (p1 p2 p3 rest : Str) :
    containsSub (p1 ++ (p2 ++ (p3 ++ rest))) (p1 ++ p2 ++ p3) = true :=
  containsSub_of_eq_append _ [] _ rest (by simp [List.append_assoc])

theorem containsSub_head3R (p1 p2 p3 rest : Str) :
    containsSub (p1 ++ (p2 ++ (p3 ++ rest))) (p1 ++ (p2 ++ p3)) = true :=
  containsSub_of_eq_append _ [] _ rest (by simp [List.append_assoc])

set_option maxHeartbeats 2000000 in
/-- C5 (amended): every synthesized relay-failure DSN envelope has
mail_from mailbox@<domain of the original sender> with display name
mailpopbox, rcpt_to exactly the original sender, an id beginning "f.", and
data consisting of the RFC 5322 header block (with Subject "Delivery Status
Notification (Failure)" and Content-Type multipart/report;
report-type=delivery-status) followed by exactly three MIME parts: a
text/plain part beginning "* * * Delivery Failure * * *" and containing
"<errorStr>:\n<sendErr>", a message/delivery-status part with
Original-Envelope-ID, Reporting-UA (the original EHLO), a
"Reporting-MTA: dns; " line (the remote address is non-nil here) and a Date
line — the current source writes no X-Remote-Address line — and a
message/rfc822 part whose content is the original envelope data
byte-for-byte. -/
theorem dsn_structure (env : Envelope) (toAddr ra : Str) (p : DSNParams)
    (hra : env.RemoteAddr = some ra) :
    (deliverRelayFailure env toAddr p).MailFrom =
      ⟨str "mailpopbox", str "mailbox@" ++ DomainForAddress env.MailFrom⟩ ∧
    (deliverRelayFailure env toAddr p).RcptTo = [env.MailFrom] ∧
    (str "f.").isPrefixOf (deliverRelayFailure env toAddr p).ID = true ∧
    (deliverRelayFailure env toAddr p).Data =
      str "From: " ++ addressString ⟨str "mailpopbox",
          str "mailbox@" ++ DomainForAddress env.MailFrom⟩ ++ str "\n" ++
      str "To: " ++ addressString env.MailFrom ++ str "\n" ++
      str "Subject: Delivery Status Notification (Failure)\n" ++
      str "X-Failed-Recipients: " ++ toAddr ++ str "\n" ++
      str "Message-ID: " ++ generateEnvelopeId (str "f") p.nowNanos p.nowHex ++ str "\n" ++
      str "Date: " ++ p.nowDate ++ str "\n" ++
      str "Content-Type: multipart/report; boundary=" ++ p.boundary ++
        str "; report-type=delivery-status\n\n" ++
      (str "--" ++ p.boundary ++ str "\r\nContent-Type: text/plain; charset=UTF-8\r\n\r\n" ++
       (str "* * * Delivery Failure * * *\n\n" ++
        str "The server failed to relay the message:\n\n" ++
        p.errorStr ++ str ":\n" ++ p.sendErr ++ str "\n")) ++
      (str "\r\n--" ++ p.boundary ++ str "\r\nContent-Type: message/delivery-status\r\n\r\n" ++
       (str "Original-Envelope-ID: " ++ env.ID ++ str "\n" ++
        str "Reporting-UA: " ++ env.EHLO ++ str "\n" ++
        str "Reporting-MTA: dns; " ++ p.rhost ++ str "\n" ++
        str "Date: " ++ env.ReceivedDate ++ str "\n")) ++
      (str "\r\n--" ++ p.boundary ++ str "\r\nContent-Type: message/rfc822\r\n\r\n" ++
       env.Data) ++
      (str "\r\n--" ++ p.boundary ++ str "--\r\n") ∧
    containsSub (deliverRelayFailure env toAddr p).Data
      (str "Subject: Delivery Status Notification (Failure)\n") = true ∧
    containsSub (deliverRelayFailure env toAddr p).Data
      (p.errorStr ++ str ":\n" ++ p.sendErr) = true ∧
    containsSub (deliverRelayFailure env toAddr p).Data
      (str "Original-Envelope-ID: " ++ env.ID ++ str "\n") = true := by
  refine ⟨by simp [deliverRelayFailure], by simp [deliverRelayFailure], ?_, ?_, ?_, ?_, ?_⟩
  · simp only [deliverRelayFailure]
    unfold generateEnvelopeId
    rw [show (str "f" : Str) ++ str "." = str "f." from rfl]
    simp only [List.append_assoc]
    exact isPrefixOf_self_append _ _
  · simp [deliverRelayFailure, generateEnvelopeId, hra, List.append_assoc]
  · simp only [deliverRelayFailure, hra]
    simp only [List.append_assoc]
    repeat
      first
      | exact containsSub_self_append _ _
      | apply containsSub_append_of_right
  · simp only [deliverRelayFailure, hra]
    simp only [List.append_assoc]
    repeat
      first
      | exact containsSub_head3R _ _ _ _
      | apply containsSub_append_of_right
  · simp only [deliverRelayFailure, hra]
    simp only [List.append_assoc]
    repeat
      first
      | exact containsSub_head3R _ _ _ _
      | apply containsSub_append_of_right

/-- C5 counterexample: the DSN synthesized for the failed relay of envelope
m.willfail (remote address present) contains no "X-Remote-Address" line
anywhere in its data, although the claim requires the delivery-status part
to carry one. -/
theorem dsn_no_xremote_address :
    containsSub dsnEnv0.Data (str "X-Remote-Address") = false ∧
    dsnEnv0.RcptTo = [⟨[], str "from@sender.org"⟩] ∧
    dsnEnv0.MailFrom = ⟨str "mailpopbox", str "mailbox@sender.org"⟩ ∧
    envWillfail.RemoteAddr = some (str "1.2.3.4:5678") ∧
    containsSub dsnEnv0.Data (str "Reporting-MTA: dns; rev.example.net\n") = true :=
  ⟨by rfl, by rfl, by rfl, by rfl, by rfl⟩

/-- Witness for dsn_structure at the m.willfail envelope. -/
theorem dsn_structure_witness :
    (deliverRelayFailure envWillfail (str "to@receive.net") dsnParams0).MailFrom =
      ⟨str "mailpopbox", str "mailbox@" ++ DomainForAddress envWillfail.MailFrom⟩ ∧
    (deliverRelayFailure envWillfail (str "to@receive.net") dsnParams0).RcptTo =
      [envWillfail.MailFrom] ∧
    (str "f.").isPrefixOf
      (deliverRelayFailure envWillfail (str "to@receive.net") dsnParams0).ID = true ∧
    containsSub (deliverRelayFailure envWillfail (str "to@receive.net") dsnParams0).Data
      (str "Original-Envelope-ID: " ++ envWillfail.ID ++ str "\n") = true :=
  ⟨(dsn_structure envWillfail (str "to@receive.net") (str "1.2.3.4:5678") dsnParams0
      (by rfl)).1,
   (dsn_structure envWillfail (str "to@receive.net") (str "1.2.3.4:5678") dsnParams0
      (by rfl)).2.1,
   (dsn_structure envWillfail (str "to@receive.net") (str "1.2.3.4:5678") dsnParams0
      (by rfl)).2.2.1,
   (dsn_structure envWillfail (str "to@receive.net") (str "1.2.3.4:5678") dsnParams0
      (by rfl)).2.2.2.2.2.2⟩

/-- C8 (amended): for every envelope whose data was built by the SMTP
receive path — the synthesized Received trace followed by the raw message —
the maildrop file is exactly "Delivered-To: <rcpt_to[0]>\r\n", then
"Return-Path: <mail_from>\r\n", then the data verbatim; the data begins
with "Received: from " (as every synthesized trace does) and the file
contains the trace's " id <env.ID>" field. The DSN envelopes that reach the
same deliver_message sink do not carry such a trace, hence the restriction
to receive-path envelopes. -/
theorem delivery_format (e : Envelope) (ehlo rhost serverName transport raw : Str)
    (esmtp tlsActive : Bool)
    (hdata : e.Data = getReceivedInfo ehlo rhost serverName esmtp tlsActive transport e ++ raw) :
    WriteEnvelopeForDelivery e =
      str "Delivered-To: <" ++ (e.RcptTo.headD ⟨[], []⟩).Address ++ str ">\r\n" ++
      (str "Return-Path: <" ++ e.MailFrom.Address ++ str ">\r\n" ++ e.Data) ∧
    (str "Received: from ").isPrefixOf
      (getReceivedInfo ehlo rhost serverName esmtp tlsActive transport e) = true ∧
    containsSub (WriteEnvelopeForDelivery e) (str "Delivered-To: <") = true ∧
    containsSub (WriteEnvelopeForDelivery e) (str "Return-Path: <") = true ∧
    containsSub (WriteEnvelopeForDelivery e) (str " id " ++ e.ID ++ str "\r\n") = true := by
  refine ⟨?_, ?_, ?_, ?_, ?_⟩
  · simp [WriteEnvelopeForDelivery, List.append_assoc]
  · unfold getReceivedInfo
    simp only [List.append_assoc]
    exact isPrefixOf_self_append _ _
  · unfold WriteEnvelopeForDelivery
    simp only [List.append_assoc]
    exact containsSub_self_append _ _
  · unfold WriteEnvelopeForDelivery
    simp only [List.append_assoc]
    repeat
      first
      | exact containsSub_self_append _ _
      | apply containsSub_append_of_right
  · unfold WriteEnvelopeForDelivery
    rw [hdata]
    unfold getReceivedInfo
    rw [show (str "\r\n        " : Str) = str "\r\n" ++ str "        " from rfl]
    simp only [List.append_assoc]
    repeat
      first
      | exact containsSub_head3R _ _ _ _
      | apply containsSub_append_of_right

/-- Witness for delivery_format at a traced two-line message. -/
theorem delivery_format_witness :
    containsSub (WriteEnvelopeForDelivery envTraced)
      (str " id " ++ envTraced.ID ++ str "\r\n") = true ∧
    (str "Received: from ").isPrefixOf
      (getReceivedInfo (str "greet.test") (str "9.8.7.6") (str "mx.foo.com")
        true false (str "PLAINTEXT") envTraced) = true :=
  ⟨(delivery_format envTraced (str "greet.test") (str "9.8.7.6") (str "mx.foo.com")
      (str "PLAINTEXT") (str "raw message\r\n") true false (by rfl)).2.2.2.2,
   (delivery_format envTraced (str "greet.test") (str "9.8.7.6") (str "mx.foo.com")
      (str "PLAINTEXT") (str "raw message\r\n") true false (by rfl)).2.1⟩

/-- C8 counterexample: the DSN envelope synthesized by deliverRelayFailure
is accepted for local delivery through the same sink, and its file is
Delivered-To/Return-Path followed by its data verbatim; but that data does
not begin with a synthesized "Received: from " trace and the file contains
no " id <env.ID>" field for the DSN's own id f.1234.abcd1234, contradicting
the claim's universal quantification over every envelope accepted for local
delivery. -/
theorem delivery_format_counterexample :
    WriteEnvelopeForDelivery dsnEnv0 =
      str "Delivered-To: <from@sender.org>\r\n" ++
      (str "Return-Path: <mailbox@sender.org>\r\n" ++ dsnEnv0.Data) ∧
    (str "Received: from ").isPrefixOf dsnEnv0.Data = false ∧
    containsSub (WriteEnvelopeForDelivery dsnEnv0)
      (str " id " ++ dsnEnv0.ID ++ str "\r\n") = false :=
  ⟨by rfl, by rfl, by rfl⟩

theorem getD_append_mid (xs : List Str) (y : Str) (ys : List Str) :
    (xs ++ y :: ys).getD xs.length [] = y := by
  rw [List.getD_eq_getElem?_getD, List.getElem?_append_right (Nat.le_refl xs.length)]
  simp

/-- C1 (amended): handleSendAs inspects the LAST header line prefixed
"Subject:" and the LAST line prefixed "From:" of the header block (the
bytes before the first "\n\n"; when a prefix never occurs the first header
line is used, as both indices start at 0). If the inspected Subject line
matches the sendas regular expression, the envelope's mail_from address
becomes "<captured-localpart>@<domain-of-authc>", exactly the matched
[sendas:...] fragment is removed from that Subject line, the inspected From
line is replaced by its bytes up to and including its last "<" followed by
the new address and ">\n" (bytes of that line after the "<" are dropped),
every other header line and the bytes from the first "\n\n" onward are
unchanged. If the data has no "\n\n", or the inspected Subject line does
not match the regular expression, the envelope is unchanged. -/
theorem handleSendAs_amended (en : Envelope) (authc : Str) :
    (findSubIdx en.Data (str "\n\n") = none → handleSendAs en authc = en) ∧
    (∀ hIdx, findSubIdx en.Data (str "\n\n") = some hIdx →
      sendAsFind ((splitAfterNL (en.Data.take hIdx)).getD
        (lastHdrIdx (str "Subject:") (splitAfterNL (en.Data.take hIdx))) []) = none →
      handleSendAs en authc = en) ∧
    (∀ hIdx sPre subjHdr sPost fPre fromHdr fPost m0s m0e m1s m1e lt,
      findSubIdx en.Data (str "\n\n") = some hIdx →
      splitAfterNL (en.Data.take hIdx) = sPre ++ subjHdr :: sPost →
      (str "Subject:").isPrefixOf subjHdr = true →
      (∀ x ∈ sPost, (str "Subject:").isPrefixOf x = false) →
      splitAfterNL (en.Data.take hIdx) = fPre ++ fromHdr :: fPost →
      (str "From:").isPrefixOf fromHdr = true →
      (∀ x ∈ fPost, (str "From:").isPrefixOf x = false) →
      sPre.length ≠ fPre.length →
      sendAsFind subjHdr = some (m0s, m0e, m1s, m1e) →
      lastIdxOf fromHdr '<' = some lt →
      (handleSendAs en authc).MailFrom.Address =
        (subjHdr.take m1e).drop m1s ++ str "@" ++ DomainForAddressString authc ∧
      (handleSendAs en authc).MailFrom.Name = en.MailFrom.Name ∧
      (handleSendAs en authc).Data =
        (((sPre ++ subjHdr :: sPost).set sPre.length
            (subjHdr.take m0s ++ subjHdr.drop m0e)).set fPre.length
            (fromHdr.take (lt + 1) ++
             ((subjHdr.take m1e).drop m1s ++ str "@" ++ DomainForAddressString authc) ++
             str ">\n")).flatten ++ en.Data.drop hIdx ∧
      (handleSendAs en authc).RcptTo = en.RcptTo ∧
      (handleSendAs en authc).ID = en.ID) := by
  refine ⟨?_, ?_, ?_⟩
  · intro h
    unfold handleSendAs
    rw [h]
  · intro hIdx hsep hnone
    unfold handleSendAs
    rw [hsep]
    dsimp only
    rw [hnone]
  · intro hIdx sPre subjHdr sPost fPre fromHdr fPost m0s m0e m1s m1e lt
      hsep hS hSpre hSlast hF hFpre hFlast hne hmatch hlt
    have hsame : sPre ++ subjHdr :: sPost = fPre ++ fromHdr :: fPost :=
      hS.symm.trans hF
    have hlenS : lastHdrIdx (str "Subject:") (splitAfterNL (en.Data.take hIdx)) =
        sPre.length := by
      rw [hS]
      exact lastHdrIdx_append _ _ _ _ hSpre hSlast
    have hlenF : lastHdrIdx (str "From:") (splitAfterNL (en.Data.take hIdx)) =
        fPre.length := by
      rw [hF]
      exact lastHdrIdx_append _ _ _ _ hFpre hFlast
    have hgetS : (splitAfterNL (en.Data.take hIdx)).getD sPre.length [] = subjHdr := by
      rw [hS]
      exact getD_append_mid sPre subjHdr sPost
    have hgetS2 : (sPre ++ subjHdr :: sPost).getD sPre.length [] = subjHdr :=
      getD_append_mid sPre subjHdr sPost
    have hgetF2 : (sPre ++ subjHdr :: sPost).getD fPre.length [] = fromHdr := by
      rw [hsame]
      exact getD_append_mid fPre fromHdr fPost
    have hmap := enum_map_two_point (sPre ++ subjHdr :: sPost) sPre.length fPre.length
      (fun h => h.take m0s ++ h.drop m0e)
      (fun h =>
        h.take (match lastIdxOf h '<' with | some j => j + 1 | none => 0) ++
        ((subjHdr.take m1e).drop m1s ++ str "@" ++ DomainForAddressString authc) ++
        str ">\n")
      hne
      (by simp [List.length_append])
      (by rw [hsame]; simp [List.length_append])
    rw [hgetS2, hgetF2] at hmap
    unfold handleSendAs
    rw [hsep]
    dsimp only
    rw [hlenS, hlenF, hgetS, hmatch]
    dsimp only
    rw [hS, hmap]
    simp [hlt]

/-- C1 counterexample: the header block of cexTwoSubject contains a
Subject: header matching the send-as regex (its first line) and a From:
header with an angle-addr, yet handleSendAs leaves the envelope completely
unchanged — the code only inspects the LAST Subject:-prefixed line
("Subject: b\n"), which does not match — so mail_from is not set to
x@d.com as the claim requires. -/
theorem handleSendAs_counterexample :
    handleSendAs cexTwoSubject (str "mailbox@d.com") = cexTwoSubject ∧
    findSubIdx cexTwoSubject.Data (str "\n\n") = some 44 ∧
    (splitAfterNL (cexTwoSubject.Data.take 44)).getD 0 [] = str "Subject: a [sendas:x]\n" ∧
    sendAsFind (str "Subject: a [sendas:x]\n") = some (11, 21, 19, 20) ∧
    (splitAfterNL (cexTwoSubject.Data.take 44)).getD 2 [] = str "From: <u@v>" ∧
    lastIdxOf (str "From: <u@v>") '<' = some 6 ∧
    cexTwoSubject.MailFrom.Address ≠ str "x@d.com" :=
  ⟨by rfl, by rfl, by rfl, by rfl, by rfl, by rfl, by decide⟩

/-- Witness for handleSendAs_amended at the spec's send-as scenario. -/
theorem handleSendAs_amended_witness :
    (handleSendAs cexSendAs (str "mailbox@example.com")).MailFrom.Address =
      ((str "Subject: Send-as relay [sendas:source]").take 37).drop 31 ++ str "@" ++
        DomainForAddressString (str "mailbox@example.com") ∧
    (handleSendAs cexSendAs (str "mailbox@example.com")).MailFrom.Address =
      str "source@example.com" :=
  ⟨((handleSendAs_amended cexSendAs (str "mailbox@example.com")).2.2 83
      [str "From: <mailbox@example.com>\n", str "To: <dest@x.net>\n"]
      (str "Subject: Send-as relay [sendas:source]") []
      [] (str "From: <mailbox@example.com>\n")
      [str "To: <dest@x.net>\n", str "Subject: Send-as relay [sendas:source]"]
      23 38 31 37 6
      (by rfl) (by rfl) (by rfl) (by decide) (by rfl) (by rfl) (by decide)
      (by decide) (by rfl) (by rfl)).1,
   by rfl⟩
